import Mathlib

/-!
Shallow embedding of `src/bno055.py` (BNO055 IMU driver for the ME405 Romi
term project).  The I2C transport, the time source, the console, the file
system and the inter-task shares are external collaborators; each operation
on them is recorded as an explicit trace event, and reads are supplied by
oracle functions.  Bytes are `Nat` values; a register block is a `List Nat`.
-/

namespace BNO055

/-- I2C device address of the BNO055 (source line 10). -/
def I2C_ADDR : Nat := 0x28

/-- Operation mode register (source line 13). -/
def REG_OPR_MODE : Nat := 0x3D

/-- Calibration status register (source line 14). -/
def REG_CALIB_STAT : Nat := 0x35

/-- Euler angles data register (source line 15). -/
def REG_EULER_ANGLES : Nat := 0x1A

/-- Gyroscope data register (source line 16). -/
def REG_GYRO_DATA : Nat := 0x14

/-- Starting register for calibration coefficients (source line 17). -/
def REG_CALIBRATION_DATA : Nat := 0x55

/-- Configuration mode (source line 20). -/
def MODE_CONFIG : Nat := 0x00

/-- Full sensor fusion mode (source line 32). -/
def MODE_NDOF : Nat := 0x0C

/-- Task state tag: calibration (source line 36). -/
def S0_CALIBRATION : Nat := 0

/-- Task state tag: angle streaming (source line 37). -/
def S1_ANGLES : Nat := 1

/-- Task state tag: velocity streaming (source line 38, typo kept). -/
def S2_VELCOITY : Nat := 2

/-- Task state tag: holding (source line 39). -/
def S3_HOLDING : Nat := 3

/-- Default calibration file name (source lines 111, 120). -/
def CALIB_FILENAME : String := "IMUcalibration.txt"

/-- Observable effects of the driver on its external collaborators:
I2C writes (successful and failed attempts), I2C reads, delays, console
output, file-system reads/writes, share accesses, garbage-collection hints
and cooperative yields. -/
inductive Ev where
  | memWrite (reg : Nat) (data : List Nat)
  | memWriteFail (reg : Nat) (data : List Nat)
  | memRead (reg : Nat) (n : Nat)
  | delay (ms : Nat)
  | log (msg : String)
  | fileWrite (name : String) (data : List Nat)
  | fileRead (name : String)
  | sharePutHeading (v : Int)
  | shareGetHeading
  | shareGetTarget
  | gcCollect
  | yieldState (s : Nat)
  deriving Repr, DecidableEq

/-- Is the event an I2C write attempt (successful or failed)? -/
def Ev.isMemWrite : Ev → Bool
  | .memWrite _ _ => true
  | .memWriteFail _ _ => true
  | _ => false

/-- Is the event a read of the calibration status register? -/
def Ev.isStatusRead : Ev → Bool
  | .memRead r _ => r == REG_CALIB_STAT
  | _ => false

/-- Is the event a file-system write? -/
def Ev.isFileWrite : Ev → Bool
  | .fileWrite _ _ => true
  | _ => false

/-- Is the event a cooperative yield? -/
def Ev.isYield : Ev → Bool
  | .yieldState _ => true
  | _ => false

/-- The successful I2C register writes in a trace, as (register, bytes). -/
def writesIn (evs : List Ev) : List (Nat × List Nat) :=
  evs.filterMap fun e =>
    match e with
    | .memWrite r d => some (r, d)
    | _ => none

/-- Two's-complement reading of a 16-bit value, as done by
python struct.unpack with format h. -/
def toInt16 (u : Nat) : Int :=
  if u % 65536 < 32768 then ((u % 65536 : Nat) : Int)
  else ((u % 65536 : Nat) : Int) - 65536

/-- python struct.unpack with little-endian format hhh on a
6-byte buffer: three signed 16-bit integers, least significant byte first.
On a buffer of any other length struct.unpack raises, modelled as none. -/
def unpack_hhh (raw : List Nat) : Option (Int × Int × Int) :=
  match raw with
  | [b0, b1, b2, b3, b4, b5] =>
      some (toInt16 (b0 + 256 * b1), toInt16 (b2 + 256 * b3), toInt16 (b4 + 256 * b5))
  | _ => none

/-- get_euler_angles (source lines 80-88): read 6 bytes from the Euler
angle register and unpack them as three little-endian int16, returned raw.
The read oracle rd maps (byte count, register) to the bytes returned. -/
def get_euler_angles (rd : Nat → Nat → List Nat) : Option (Int × Int × Int) :=
  unpack_hhh (rd 6 REG_EULER_ANGLES)

/-- get_angular_velocity (source lines 90-98): read 6 bytes from the
gyroscope data register and unpack them identically. -/
def get_angular_velocity (rd : Nat → Nat → List Nat) : Option (Int × Int × Int) :=
  unpack_hhh (rd 6 REG_GYRO_DATA)

/-- get_calibration_status (source lines 71-78) applied to the status
byte read from the calibration status register: extract the four 2-bit
scores (sys, gyro, accel, mag). -/
def get_calibration_status (status : Nat) : Nat × Nat × Nat × Nat :=
  ((status >>> 6) &&& 0x03, (status >>> 4) &&& 0x03,
   (status >>> 2) &&& 0x03, status &&& 0x03)

/-- The loop-exit test of calibrate_if_needed (source line 145):
calibration_done = (status[1] + status[2] + status[3]) == 9, where the
tuple is (sys, gyro, accel, mag). -/
def calibration_done (status : Nat × Nat × Nat × Nat) : Bool :=
  status.2.1 + status.2.2.1 + status.2.2.2 == 9

/-- write_calibration_data (source lines 104-109): if the blob is not
exactly 22 bytes, log an error and return without touching the bus;
otherwise write the blob to the calibration coefficient register. -/
def write_calibration_data (data : List Nat) : List Ev :=
  if data.length ≠ 22 then [Ev.log "[ERROR] Invalid calibration data size."]
  else [Ev.memWrite REG_CALIBRATION_DATA data]

/-- get_calibration_data (source lines 100-102): read the 22 calibration
coefficient bytes.  devCalib is the block the device currently holds. -/
def get_calibration_data (devCalib : List Nat) : List Nat × List Ev :=
  (devCalib, [Ev.memRead REG_CALIBRATION_DATA 22])

/-- The file system as an association list from file name to contents;
a write prepends and lookup takes the first match. -/
abbrev FS := List (String × List Nat)

/-- save_calibration (source lines 111-118): read the device calibration
block and write it to the calibration file. -/
def save_calibration (fs : FS) (devCalib : List Nat) : FS × List Ev :=
  ((CALIB_FILENAME, devCalib) :: fs,
   [Ev.memRead REG_CALIBRATION_DATA 22,
    Ev.fileWrite CALIB_FILENAME devCalib,
    Ev.log "[BNO055] Calibration saved successfully."])

/-- load_calibration (source lines 120-134): if the calibration file is
present, read it and hand its bytes to write_calibration_data, returning
True; otherwise log that manual calibration is needed and return False. -/
def load_calibration (fs : FS) : Bool × List Ev :=
  match fs.lookup CALIB_FILENAME with
  | some data =>
      (true, Ev.fileRead CALIB_FILENAME :: write_calibration_data data ++
             [Ev.log "[BNO055] Calibration loaded from file."])
  | none => (false, [Ev.log "[BNO055] Needs to be done manually:"])

/-- The Earning polling loop of calibrate_if_needed (source lines 142-147).
Each iteration reads the status byte for the loop test, reads it a second
time for the progress print (source line 146), and delays 500 ms.
statusByte maps the status-read count to the byte the device returns; rd is
the current read count; fuel bounds the number of iterations, none meaning
the loop did not exit within fuel iterations. -/
def earning_loop (statusByte : Nat → Nat) : Nat → Nat → Option (Nat × List Ev)
  | 0, _ => none
  | fuel + 1, rd =>
      let st := get_calibration_status (statusByte rd)
      let evs := [Ev.memRead REG_CALIB_STAT 1, Ev.memRead REG_CALIB_STAT 1,
                  Ev.log "Calibrating...", Ev.delay 500]
      if calibration_done st then some (rd + 2, evs)
      else
        match earning_loop statusByte fuel (rd + 2) with
        | some (rd2, evs2) => some (rd2, evs ++ evs2)
        | none => none

/-- calibrate_if_needed (source lines 136-150): try load_calibration; if
it succeeds, done.  Otherwise poll the calibration status until converged,
then save the device calibration block to the file.  Returns the final
file system and the event trace, or none when the polling loop did not
exit within fuel iterations. -/
def calibrate_if_needed (fs : FS) (statusByte : Nat → Nat) (devCalib : List Nat)
    (fuel : Nat) : Option (FS × List Ev) :=
  match load_calibration fs with
  | (true, evs) =>
      some (fs, evs ++ [Ev.log "[BNO055] Calibration complete and saved."])
  | (false, evs) =>
      match earning_loop statusByte fuel 0 with
      | none => none
      | some (_, evs2) =>
          let sv := save_calibration fs devCalib
          some (sv.1, evs ++ evs2 ++ sv.2 ++
                      [Ev.log "[BNO055] Calibration complete and saved."])

/-- set_mode (source lines 62-69): write the mode byte to the operation
mode register, then delay 10 ms.  On an OSError from the write, log and
re-raise.  wok tells whether a given register write succeeds. -/
def set_mode (wok : Nat → List Nat → Bool) (mode : Nat) : List Ev × Except Unit Unit :=
  if wok REG_OPR_MODE [mode] then
    ([Ev.memWrite REG_OPR_MODE [mode], Ev.delay 10], Except.ok ())
  else
    ([Ev.memWriteFail REG_OPR_MODE [mode], Ev.log "[ERROR] BNO055 cannot set mode"],
     Except.error ())

/-- initialize_imu (source lines 53-60): set config mode (any failure here
propagates), then try NDOF mode; a failure of that second transition is
caught, logged, and not re-raised. -/
def init_imu (wok : Nat → List Nat → Bool) : List Ev × Except Unit Unit :=
  match set_mode wok MODE_CONFIG with
  | (evs, Except.error e) => (evs, Except.error e)
  | (evs, Except.ok _) =>
      match set_mode wok MODE_NDOF with
      | (evs2, Except.ok _) =>
          (evs ++ evs2 ++ [Ev.log "[BNO055] Initialized in NDOF Mode."], Except.ok ())
      | (evs2, Except.error _) =>
          (evs ++ evs2 ++ [Ev.log "[ERROR] BNO055 not detected. Check wiring!"],
           Except.ok ())

/-- The two inter-task shares handed to the sampling task: the measured
heading output slot and the target heading input slot. -/
structure Shares where
  heading : Int
  target : Int
  deriving Repr, DecidableEq

/-- One cycle of the sampling task (source lines 152-167), from one
resumption to the next yield: collect garbage, read the Euler angles,
optionally log the debug comparison (which reads both shares), publish the
heading component to the heading share, then yield the task state.  Returns
none when the angle read does not unpack (struct.unpack raises). -/
def task_cycle (rd : Nat → Nat → List Nat) (debug : Bool) (state : Nat)
    (sh : Shares) : Option (Shares × List Ev) :=
  match get_euler_angles rd with
  | none => none
  | some angles =>
      let dbgEvs := if debug then
          [Ev.shareGetTarget, Ev.shareGetHeading,
           Ev.log "Target Heading | Measured Heading"]
        else []
      some ({ sh with heading := angles.1 },
            [Ev.gcCollect, Ev.memRead REG_EULER_ANGLES 6] ++ dbgEvs ++
            [Ev.sharePutHeading angles.1, Ev.yieldState state])

/-! Helper lemmas about the Earning polling loop. -/

/-- When the polling loop exits, it has consumed at least one iteration,
so the final read count is at least two past the initial one. -/
theorem earning_loop_exit_ge (statusByte : Nat → Nat) :
    ∀ (fuel rd rd2 : Nat) (evs : List Ev),
      earning_loop statusByte fuel rd = some (rd2, evs) → rd + 2 ≤ rd2 := by
  intro fuel
  induction fuel with
  | zero => intro rd rd2 evs h; simp [earning_loop] at h
  | succ n ih =>
      intro rd rd2 evs h
      simp only [earning_loop] at h
      split at h
      · exact (Prod.mk.injEq _ _ _ _ ▸ (Option.some.injEq _ _ ▸ h)).1 ▸ Nat.le_refl _
      · split at h
        · rename_i rd3 evs2 heq
          obtain ⟨h1, _⟩ := Prod.mk.injEq _ _ _ _ ▸ (Option.some.injEq _ _ ▸ h)
          have := ih (rd + 2) rd3 evs2 heq
          omega
        · exact absurd h (by simp)

/-- Every successful run of the polling loop reads the calibration status
register at least once. -/
theorem earning_loop_reads_status (statusByte : Nat → Nat) :
    ∀ (fuel rd rd2 : Nat) (evs : List Ev),
      earning_loop statusByte fuel rd = some (rd2, evs) →
      Ev.memRead REG_CALIB_STAT 1 ∈ evs := by
  intro fuel
  induction fuel with
  | zero => intro rd rd2 evs h; simp [earning_loop] at h
  | succ n ih =>
      intro rd rd2 evs h
      simp only [earning_loop] at h
      split at h
      · obtain ⟨_, h2⟩ := Prod.mk.injEq _ _ _ _ ▸ (Option.some.injEq _ _ ▸ h)
        subst h2; simp
      · split at h
        · rename_i rd3 evs2 heq
          obtain ⟨_, h2⟩ := Prod.mk.injEq _ _ _ _ ▸ (Option.some.injEq _ _ ▸ h)
          subst h2; simp
        · exact absurd h (by simp)

/-- C1: the Earning loop of the calibration convergence protocol exits its
polling loop iff gyro + accel + mag = 9, independently of the sys score; in
particular status tuple (0,3,3,3) converges and (3,3,3,2) does not. -/
theorem c1_convergence_predicate :
    (∀ s s' g a m, calibration_done (s, g, a, m) = calibration_done (s', g, a, m)) ∧
    (∀ s g a m, calibration_done (s, g, a, m) = true ↔ g + a + m = 9) ∧
    calibration_done (0, 3, 3, 3) = true ∧
    calibration_done (3, 3, 3, 2) = false ∧
    (∀ (statusByte : Nat → Nat) (fuel rd : Nat),
      (∃ evs, earning_loop statusByte (fuel + 1) rd = some (rd + 2, evs)) ↔
        calibration_done (get_calibration_status (statusByte rd)) = true) := by
  refine ⟨?_, ?_, by decide, by decide, ?_⟩
  · intro s s' g a m; simp [calibration_done]
  · intro s g a m; simp [calibration_done]
  · intro statusByte fuel rd
    constructor
    · rintro ⟨evs, h⟩
      by_contra hnd
      simp only [earning_loop] at h
      rw [if_neg (by simpa using hnd)] at h
      split at h
      · rename_i rd3 evs2 heq
        obtain ⟨h1, _⟩ := Prod.mk.injEq _ _ _ _ ▸ (Option.some.injEq _ _ ▸ h)
        have := earning_loop_exit_ge statusByte fuel (rd + 2) rd3 evs2 heq
        omega
      · exact absurd h (by simp)
    · intro hd
      refine ⟨[Ev.memRead REG_CALIB_STAT 1, Ev.memRead REG_CALIB_STAT 1,
               Ev.log "Calibrating...", Ev.delay 500], ?_⟩
      simp [earning_loop, hd]

/-- Witness for C1 at a concrete status byte: 0x3F decodes to (0,3,3,3)
and the loop exits on its first poll. -/
theorem c1_convergence_predicate_witness :
    ∃ evs, earning_loop (fun _ => 0x3F) 1 0 = some (2, evs) :=
  (c1_convergence_predicate.2.2.2.2 (fun _ => 0x3F) 0 0).mpr (by decide)

/-- C3: writing a calibration blob whose length is not 22 performs no
transport write (only the error log); a 22-byte blob produces exactly one
write of exactly those bytes to the calibration coefficient register. -/
theorem c3_write_calibration_data (data : List Nat) :
    (data.length ≠ 22 →
       writesIn (write_calibration_data data) = [] ∧
       Ev.log "[ERROR] Invalid calibration data size." ∈ write_calibration_data data) ∧
    (data.length = 22 →
       write_calibration_data data = [Ev.memWrite REG_CALIBRATION_DATA data] ∧
       writesIn (write_calibration_data data) = [(REG_CALIBRATION_DATA, data)]) := by
  constructor
  · intro h
    simp [write_calibration_data, h, writesIn, List.filterMap]
  · intro h
    simp [write_calibration_data, h, writesIn, List.filterMap]

/-- Witness for C3: a 3-byte blob is rejected without any write; a
22-byte blob is written verbatim. -/
theorem c3_write_calibration_data_witness :
    writesIn (write_calibration_data [0, 1, 2]) = [] ∧
    write_calibration_data (List.replicate 22 7) =
      [Ev.memWrite REG_CALIBRATION_DATA (List.replicate 22 7)] :=
  ⟨((c3_write_calibration_data [0, 1, 2]).1 (by decide)).1,
   ((c3_write_calibration_data (List.replicate 22 7)).2 (by decide)).1⟩

/-- C5: set_mode writes exactly the mode byte to the operation mode
register followed by the fixed 10 ms settle delay; when the transport
write fails, the error propagates and the trace holds exactly one write
attempt (no retry). -/
theorem c5_set_mode (wok : Nat → List Nat → Bool) (mode : Nat) :
    (wok REG_OPR_MODE [mode] = true →
       set_mode wok mode =
         ([Ev.memWrite REG_OPR_MODE [mode], Ev.delay 10], Except.ok ())) ∧
    (wok REG_OPR_MODE [mode] = false →
       (set_mode wok mode).2 = Except.error () ∧
       (set_mode wok mode).1.countP (fun e => e.isMemWrite) = 1) := by
  constructor
  · intro h; simp [set_mode, h]
  · intro h
    simp [set_mode, h, List.countP, List.countP.go, Ev.isMemWrite]

/-- Witness for C5: a succeeding transport yields the write-then-delay
trace; a failing transport propagates the error. -/
theorem c5_set_mode_witness :
    set_mode (fun _ _ => true) MODE_NDOF =
      ([Ev.memWrite REG_OPR_MODE [ MODE_NDOF], Ev.delay 10], Except.ok ()) ∧
    (set_mode (fun _ _ => false) MODE_NDOF).2 = Except.error () :=
  ⟨(c5_set_mode (fun _ _ => true) MODE_NDOF).1 rfl,
   ((c5_set_mode (fun _ _ => false) MODE_NDOF).2 rfl).1⟩

/-- C7: get_euler_angles reads 6 bytes from the Euler angle register and
decodes three little-endian signed 16-bit integers with no unit
conversion; on raw bytes 01 00 02 00 FF FF it returns (1, 2, -1), and
get_angular_velocity decodes its 6 gyroscope bytes identically. -/
theorem c7_orientation_decoding :
    (∀ rd : Nat → Nat → List Nat,
       rd 6 REG_EULER_ANGLES = [1, 0, 2, 0, 0xFF, 0xFF] →
       get_euler_angles rd = some (1, 2, -1)) ∧
    (∀ b0 b1 b2 b3 b4 b5 : Nat,
       unpack_hhh [b0, b1, b2, b3, b4, b5] =
         some (toInt16 (b0 + 256 * b1), toInt16 (b2 + 256 * b3),
               toInt16 (b4 + 256 * b5))) ∧
    (∀ rd, get_euler_angles rd = unpack_hhh (rd 6 REG_EULER_ANGLES)) ∧
    (∀ rd, get_angular_velocity rd = unpack_hhh (rd 6 REG_GYRO_DATA)) := by
  refine ⟨?_, fun _ _ _ _ _ _ => rfl, fun _ => rfl, fun _ => rfl⟩
  intro rd h
  simp only [get_euler_angles, h]
  decide

/-- Witness for C7 at the spec's example bytes. -/
theorem c7_orientation_decoding_witness :
    get_euler_angles (fun _ _ => [1, 0, 2, 0, 0xFF, 0xFF]) = some (1, 2, -1) :=
  c7_orientation_decoding.1 (fun _ _ => [1, 0, 2, 0, 0xFF, 0xFF]) rfl

/-- C4: initialization first sets config mode, then attempts NDOF mode;
when the NDOF transition fails at the transport, the run logs the
hardware-not-detected condition and still returns normally (Except.ok),
so the failure never propagates to the caller. -/
theorem c4_init_imu (wok : Nat → List Nat → Bool)
    (hc : wok REG_OPR_MODE [ MODE_CONFIG] = true)
    (hn : wok REG_OPR_MODE [ MODE_NDOF] = false) :
    init_imu wok =
      ([Ev.memWrite REG_OPR_MODE [ MODE_CONFIG], Ev.delay 10,
        Ev.memWriteFail REG_OPR_MODE [ MODE_NDOF],
        Ev.log "[ERROR] BNO055 cannot set mode",
        Ev.log "[ERROR] BNO055 not detected. Check wiring!"], Except.ok ()) := by
  simp [init_imu, set_mode, hc, hn]

/-- Witness for C4: a transport that accepts the config write and rejects
the NDOF write still lets initialization return normally. -/
theorem c4_init_imu_witness :
    (init_imu (fun _ d => d == [ MODE_CONFIG])).2 = Except.ok () := by
  rw [c4_init_imu (fun _ d => d == [ MODE_CONFIG]) rfl rfl]

/-- C6: persisting the 22-byte device calibration block and then loading
it back delivers exactly the same bytes to the device calibration write. -/
theorem c6_round_trip (fs : FS) (b : List Nat) (h : b.length = 22) :
    (save_calibration fs b).1.lookup CALIB_FILENAME = some b ∧
    (load_calibration (save_calibration fs b).1).1 = true ∧
    Ev.memWrite REG_CALIBRATION_DATA b ∈ (load_calibration (save_calibration fs b).1).2 := by
  refine ⟨rfl, ?_, ?_⟩ <;>
    simp [save_calibration, load_calibration, write_calibration_data, h, List.lookup]

/-- Witness for C6 on a concrete 22-byte blob and empty file system. -/
theorem c6_round_trip_witness :
    (save_calibration [] (List.replicate 22 3)).1.lookup CALIB_FILENAME =
      some (List.replicate 22 3) :=
  (c6_round_trip [] (List.replicate 22 3) (by decide)).1

/-- C2: the convergence loop branches solely on the presence of the
persisted blob: a present (22-byte) blob is written to the device and the
loop finishes with no status polling and no re-persist; an absent blob
sends the loop through Earning (at least one status poll), after which the
22-byte device block is read and persisted. -/
theorem c2_restore_or_earn :
    (∀ (fs : FS) (data : List Nat) (statusByte : Nat → Nat) (devCalib : List Nat)
        (fuel : Nat),
       fs.lookup CALIB_FILENAME = some data → data.length = 22 →
       ∃ evs, calibrate_if_needed fs statusByte devCalib fuel = some (fs, evs) ∧
         Ev.memWrite REG_CALIBRATION_DATA data ∈ evs ∧
         (∀ e ∈ evs, e.isStatusRead = false) ∧
         (∀ e ∈ evs, e.isFileWrite = false)) ∧
    (∀ (fs : FS) (statusByte : Nat → Nat) (devCalib : List Nat) (fuel : Nat)
        (fs2 : FS) (evs : List Ev),
       fs.lookup CALIB_FILENAME = none →
       calibrate_if_needed fs statusByte devCalib fuel = some (fs2, evs) →
       fs2.lookup CALIB_FILENAME = some devCalib ∧
       Ev.memRead REG_CALIBRATION_DATA 22 ∈ evs ∧
       Ev.fileWrite CALIB_FILENAME devCalib ∈ evs ∧
       ∃ e ∈ evs, e.isStatusRead = true) := by
  constructor
  · intro fs data statusByte devCalib fuel hl hlen
    have hw : write_calibration_data data = [Ev.memWrite REG_CALIBRATION_DATA data] := by
      simp [write_calibration_data, hlen]
    refine ⟨[Ev.fileRead CALIB_FILENAME, Ev.memWrite REG_CALIBRATION_DATA data,
             Ev.log "[BNO055] Calibration loaded from file.",
             Ev.log "[BNO055] Calibration complete and saved."], ?_, ?_, ?_, ?_⟩
    · simp [calibrate_if_needed, load_calibration, hl, hw]
    · simp
    · intro e he
      simp at he
      rcases he with rfl | rfl | rfl | rfl <;> rfl
    · intro e he
      simp at he
      rcases he with rfl | rfl | rfl | rfl <;> rfl
  · intro fs statusByte devCalib fuel fs2 evs hl h
    simp only [calibrate_if_needed, load_calibration, hl] at h
    rcases heq : earning_loop statusByte fuel 0 with _ | ⟨rd2, evs2⟩ <;>
      rw [heq] at h
    · exact absurd h (by simp)
    · obtain ⟨h1, h2⟩ := Prod.mk.injEq _ _ _ _ ▸ (Option.some.injEq _ _ ▸ h)
      subst h1; subst h2
      refine ⟨rfl, ?_, ?_, ?_⟩
      · simp [save_calibration]
      · simp [save_calibration]
      · exact ⟨Ev.memRead REG_CALIB_STAT 1,
          by simp [save_calibration, earning_loop_reads_status statusByte fuel 0 rd2 evs2 heq],
          by rfl⟩

/-- Witness for C2: with a stored 22-byte blob the loop performs no
status poll; with no stored blob and an immediately-converged status the
loop polls, reads the device block and persists it. -/
theorem c2_restore_or_earn_witness :
    (∃ evs, calibrate_if_needed [(CALIB_FILENAME, List.replicate 22 0)] (fun _ => 0)
        (List.replicate 22 1) 3 =
        some ([(CALIB_FILENAME, List.replicate 22 0)], evs) ∧
      Ev.memWrite REG_CALIBRATION_DATA (List.replicate 22 0) ∈ evs ∧
      (∀ e ∈ evs, e.isStatusRead = false) ∧
      (∀ e ∈ evs, e.isFileWrite = false)) ∧
    ([(CALIB_FILENAME, List.replicate 22 1)] : FS).lookup CALIB_FILENAME =
      some (List.replicate 22 1) :=
  ⟨c2_restore_or_earn.1 [(CALIB_FILENAME, List.replicate 22 0)] (List.replicate 22 0)
      (fun _ => 0) (List.replicate 22 1) 3 rfl (by decide),
   (c2_restore_or_earn.2 [] (fun _ => 0x3F) (List.replicate 22 1) 1
      [(CALIB_FILENAME, List.replicate 22 1)]
      [Ev.log "[BNO055] Needs to be done manually:",
       Ev.memRead REG_CALIB_STAT 1, Ev.memRead REG_CALIB_STAT 1,
       Ev.log "Calibrating...", Ev.delay 500,
       Ev.memRead REG_CALIBRATION_DATA 22,
       Ev.fileWrite CALIB_FILENAME (List.replicate 22 1),
       Ev.log "[BNO055] Calibration saved successfully.",
       Ev.log "[BNO055] Calibration complete and saved."] rfl (by rfl)).1⟩

/-- C10: when the persisted calibration file holds a blob that is not 22
bytes, loading still reports success, the convergence loop skips the
Earning phase entirely, completes, and never writes the device calibration
registers (nor any register, nor any file). -/
theorem c10_short_blob_silent_success (fs : FS) (data : List Nat)
    (statusByte : Nat → Nat) (devCalib : List Nat) (fuel : Nat)
    (hl : fs.lookup CALIB_FILENAME = some data) (hs : data.length ≠ 22) :
    (load_calibration fs).1 = true ∧
    ∃ evs, calibrate_if_needed fs statusByte devCalib fuel = some (fs, evs) ∧
      (∀ e ∈ evs, e.isStatusRead = false) ∧
      (∀ e ∈ evs, e.isMemWrite = false) ∧
      (∀ e ∈ evs, e.isFileWrite = false) := by
  have hw : write_calibration_data data = [Ev.log "[ERROR] Invalid calibration data size."] := by
    simp [write_calibration_data, hs]
  refine ⟨by simp [load_calibration, hl],
    [Ev.fileRead CALIB_FILENAME, Ev.log "[ERROR] Invalid calibration data size.",
     Ev.log "[BNO055] Calibration loaded from file.",
     Ev.log "[BNO055] Calibration complete and saved."], ?_, ?_, ?_, ?_⟩
  · simp [calibrate_if_needed, load_calibration, hl, hw]
  · intro e he
    simp at he
    rcases he with rfl | rfl | rfl | rfl <;> rfl
  · intro e he
    simp at he
    rcases he with rfl | rfl | rfl | rfl <;> rfl
  · intro e he
    simp at he
    rcases he with rfl | rfl | rfl | rfl <;> rfl

/-- Witness for C10 at a concrete 3-byte stored blob. -/
theorem c10_short_blob_silent_success_witness :
    (load_calibration [(CALIB_FILENAME, [1, 2, 3])]).1 = true ∧
    ∃ evs, calibrate_if_needed [(CALIB_FILENAME, [1, 2, 3])] (fun _ => 0) [] 3 =
        some ([(CALIB_FILENAME, [1, 2, 3])], evs) ∧
      (∀ e ∈ evs, e.isStatusRead = false) ∧
      (∀ e ∈ evs, e.isMemWrite = false) ∧
      (∀ e ∈ evs, e.isFileWrite = false) :=
  ⟨(c10_short_blob_silent_success [(CALIB_FILENAME, [1, 2, 3])] [1, 2, 3]
      (fun _ => 0) [] 3 rfl (by decide)).1,
   (c10_short_blob_silent_success [(CALIB_FILENAME, [1, 2, 3])] [1, 2, 3]
      (fun _ => 0) [] 3 rfl (by decide)).2⟩

/-- C8: every completed cycle of the sampling task yields exactly once,
as its very last event, after the heading read in that cycle has been
published to the heading share; the yield reports the task state tag. -/
theorem c8_task_cycle_yield_last (rd : Nat → Nat → List Nat) (debug : Bool)
    (state : Nat) (sh sh2 : Shares) (evs : List Ev)
    (h : task_cycle rd debug state sh = some (sh2, evs)) :
    ∃ pre hd, evs = pre ++ [Ev.yieldState state] ∧
      (∀ e ∈ pre, e.isYield = false) ∧
      Ev.sharePutHeading hd ∈ pre ∧ sh2.heading = hd := by
  simp only [task_cycle] at h
  rcases heq : get_euler_angles rd with _ | angles <;> rw [heq] at h
  · exact absurd h (by simp)
  · obtain ⟨h1, h2⟩ := Prod.mk.injEq _ _ _ _ ▸ (Option.some.injEq _ _ ▸ h)
    subst h1; subst h2
    refine ⟨[Ev.gcCollect, Ev.memRead REG_EULER_ANGLES 6] ++
      (if debug then
          [Ev.shareGetTarget, Ev.shareGetHeading,
           Ev.log "Target Heading | Measured Heading"]
        else []) ++ [Ev.sharePutHeading angles.1], angles.1, by simp, ?_, by simp, rfl⟩
    intro e he
    rcases debug <;> simp at he <;>
      rcases he with rfl | rfl | rfl | rfl | rfl | rfl <;> rfl

/-- Witness for C8 on a concrete cycle (debug off, state S1_ANGLES). -/
theorem c8_task_cycle_yield_last_witness :
    ∃ pre hd,
      ([Ev.gcCollect, Ev.memRead REG_EULER_ANGLES 6, Ev.sharePutHeading 1,
        Ev.yieldState S1_ANGLES] : List Ev) = pre ++ [Ev.yieldState S1_ANGLES] ∧
      (∀ e ∈ pre, e.isYield = false) ∧
      Ev.sharePutHeading hd ∈ pre ∧
      (Shares.mk 1 0).heading = hd :=
  c8_task_cycle_yield_last (fun _ _ => [1, 0, 2, 0, 0xFF, 0xFF]) false S1_ANGLES
    (Shares.mk 0 0) (Shares.mk 1 0)
    [Ev.gcCollect, Ev.memRead REG_EULER_ANGLES 6, Ev.sharePutHeading 1,
     Ev.yieldState S1_ANGLES] (by decide)

/-- C9: a completed cycle of the sampling task performs no I2C write
attempt at all (in particular none to the operating-mode or calibration
registers), no file-system write, reads only the 6-byte Euler-angle
register, and leaves the target share unchanged — only the heading slot
is written. -/
theorem c9_task_cycle_frame (rd : Nat → Nat → List Nat) (debug : Bool)
    (state : Nat) (sh sh2 : Shares) (evs : List Ev)
    (h : task_cycle rd debug state sh = some (sh2, evs)) :
    (∀ e ∈ evs, e.isMemWrite = false) ∧
    (∀ e ∈ evs, e.isFileWrite = false) ∧
    (∀ reg n, Ev.memRead reg n ∈ evs → reg = REG_EULER_ANGLES ∧ n = 6) ∧
    sh2.target = sh.target := by
  simp only [task_cycle] at h
  rcases heq : get_euler_angles rd with _ | angles <;> rw [heq] at h
  · exact absurd h (by simp)
  · obtain ⟨h1, h2⟩ := Prod.mk.injEq _ _ _ _ ▸ (Option.some.injEq _ _ ▸ h)
    subst h1; subst h2
    refine ⟨?_, ?_, ?_, rfl⟩
    · intro e he
      rcases debug <;> simp at he <;>
        rcases he with rfl | rfl | rfl | rfl | rfl | rfl | rfl <;> rfl
    · intro e he
      rcases debug <;> simp at he <;>
        rcases he with rfl | rfl | rfl | rfl | rfl | rfl | rfl <;> rfl
    · intro reg n hmem
      rcases debug <;> simp at hmem <;> exact ⟨hmem.1, hmem.2⟩

/-- Witness for C9 on the same concrete cycle. -/
theorem c9_task_cycle_frame_witness :
    (∀ e ∈ ([Ev.gcCollect, Ev.memRead REG_EULER_ANGLES 6, Ev.sharePutHeading 1,
             Ev.yieldState S1_ANGLES] : List Ev), e.isMemWrite = false) ∧
    (Shares.mk 1 5).target = (Shares.mk 0 5).target :=
  ⟨(c9_task_cycle_frame (fun _ _ => [1, 0, 2, 0, 0xFF, 0xFF]) false S1_ANGLES
      (Shares.mk 0 5) (Shares.mk 1 5)
      [Ev.gcCollect, Ev.memRead REG_EULER_ANGLES 6, Ev.sharePutHeading 1,
       Ev.yieldState S1_ANGLES] (by decide)).1,
   (c9_task_cycle_frame (fun _ _ => [1, 0, 2, 0, 0xFF, 0xFF]) false S1_ANGLES
      (Shares.mk 0 5) (Shares.mk 1 5)
      [Ev.gcCollect, Ev.memRead REG_EULER_ANGLES 6, Ev.sharePutHeading 1,
       Ev.yieldState S1_ANGLES] (by decide)).2.2.2⟩

end BNO055
